import Mathlib

/-!
Verification of the chat-backend REST service (`src/main.py`, `src/schemas.py`).

Documents of the underlying store are modelled as association lists of
fields.  Field values in this application are at most one level deep
(strings, booleans, null, store-native identifiers, lists of such
primitives such as `member_ids`/`attachments`, and flat mappings such as
`reactions`), so the value universe below distinguishes primitives from
one-level containers of primitives.

The store adapter (`database.py`, imported by `main.py` as
`from database import db, create_document, get_documents`) is not part of
the available sources; its operations are modelled from the spec, §4.1,
and are marked `Modelled from the spec:` below.  Everything else is a
direct transcription of `src/main.py`.
-/

/-- A primitive field value: `None`, a bool, a number, a string, or a
store-native identifier (`bson.ObjectId`), identified by the counter that
produced it. -/
inductive Prim where
  | pnull : Prim
  | pbool : Bool → Prim
  | pnat : Nat → Prim
  | pstr : String → Prim
  | poid : Nat → Prim
deriving Repr, DecidableEq

/-- A field value: a primitive, a list of primitives (e.g. `member_ids`,
`attachments`) or a flat mapping (e.g. `reactions`). -/
inductive Value where
  | prim : Prim → Value
  | vlist : List Prim → Value
  | vmap : List (String × Prim) → Value
deriving Repr, DecidableEq

/-- Shorthand for a null value. -/
def vnull : Value := .prim .pnull

/-- Shorthand for a string value. -/
def vstr (s : String) : Value := .prim (.pstr s)

/-- Shorthand for a boolean value. -/
def vbool (b : Bool) : Value := .prim (.pbool b)

/-- Shorthand for a store-native `ObjectId` value. -/
def voidd (n : Nat) : Value := .prim (.poid n)

/-- A document: an association list of fields, in insertion order (Python
dicts preserve insertion order). -/
abbrev Doc := List (String × Value)

/-- First value stored under key `k`, Python `doc[k]`-style lookup. -/
def Doc.lookup : Doc → String → Option Value
  | [], _ => none
  | (k', v) :: rest, k => if k' = k then some v else Doc.lookup rest k

/-- Python `d[k] = v` on a dict: replace the value in place if the key
exists, otherwise append the binding at the end. -/
def Doc.set : Doc → String → Value → Doc
  | [], k, v => [(k, v)]
  | (k', v') :: rest, k, v =>
      if k' = k then (k, v) :: rest else (k', v') :: Doc.set rest k v

/-- `str(ObjectId)`: the store-native identifier rendered as a string.
The concrete character format of the rendering is irrelevant to the
program (it is only parsed back by `ObjectId(...)`), so it is modelled by
an injective, never-empty encoding of the identifier counter. -/
def oidStr (n : Nat) : String :=
  String.mk (List.replicate (n + 1) 'a')

/-- `ObjectId(s)` on a string produced by `oidStr`: recover the counter.
Strings not of that shape are not valid identifier renderings. -/
def objectIdOf? (s : String) : Option Nat :=
  if s.data ≠ [] ∧ s.data.all (· = 'a') then some (s.data.length - 1) else none

/-- `ObjectId.is_valid(s)`. -/
def ObjectId.is_valid (s : String) : Bool :=
  (objectIdOf? s).isSome

/-- `ObjectId(s)` where the caller guarantees validity (in `main.py` the
argument is always a string just produced by `create_document`, or is
guarded by `ObjectId.is_valid`); an invalid string would raise in Python
and is mapped to a default here, on paths that are never reached. -/
def objectIdOf (s : String) : Nat :=
  (objectIdOf? s).getD 0

theorem objectIdOf?_oidStr (n : Nat) : objectIdOf? (oidStr n) = some n := by
  have hall : ∀ m : Nat, (List.replicate m 'a').all (· = 'a') = true := by
    intro m
    induction m with
    | zero => rfl
    | succ k ih => simp [List.replicate, ih]
  simp [objectIdOf?, oidStr, hall]

theorem oidStr_ne_empty (n : Nat) : oidStr n ≠ "" := by
  intro h
  have : (oidStr n).data = ("" : String).data := by rw [h]
  simp [oidStr] at this

/-! ### Serialization helper (`main.py` lines 25–40) -/

/-- `serialize_id(value)`: converts a top-level `ObjectId` to its string
form; every other value (including lists and mappings that may contain
`ObjectId`s inside) passes through unchanged. -/
def serialize_id : Value → Value
  | .prim (.poid n) => vstr (oidStr n)
  | v => v

/-- One field of `serialize_doc`: `_id` is renamed to `id`, and
`serialize_id` is applied to every value. -/
def serializeEntry (kv : String × Value) : String × Value :=
  if kv.1 = "_id" then ("id", serialize_id kv.2) else (kv.1, serialize_id kv.2)

/-- `serialize_doc(doc)` on a dict argument: an empty (falsy) dict is
returned unchanged, otherwise the output dict is rebuilt field by field
with `serializeEntry`. -/
def serialize_doc (doc : Doc) : Doc :=
  if doc = ([] : Doc) then doc else List.map serializeEntry doc

/-- `serialize_doc(doc)` at call sites where the argument may be `None`
(`create_server`/`create_channel`/`send_message` pass the result of
`find_one`): `if not doc: return doc` returns `None` unchanged. -/
def serialize_docOpt : Option Doc → Option Doc
  | none => none
  | some d => some (serialize_doc d)

theorem serialize_id_idem (v : Value) : serialize_id (serialize_id v) = serialize_id v := by
  cases v with
  | prim p => cases p <;> rfl
  | vlist l => rfl
  | vmap m => rfl

theorem serializeEntry_idem (kv : String × Value) :
    serializeEntry (serializeEntry kv) = serializeEntry kv := by
  by_cases h : kv.1 = "_id" <;> simp [serializeEntry, h, serialize_id_idem]

theorem serialize_doc_idem (d : Doc) : serialize_doc (serialize_doc d) = serialize_doc d := by
  by_cases h : d = ([] : Doc)
  · simp [serialize_doc, h]
  · have hmap : List.map serializeEntry d ≠ ([] : List (String × Value)) := by
      intro hc
      exact h (List.map_eq_nil_iff.mp hc)
    simp only [serialize_doc, if_neg h, if_neg hmap, List.map_map]
    exact List.map_congr_left fun kv _ => serializeEntry_idem kv

/-! ### The document store

`database.py` is not among the available sources; the store and its two
adapter operations are modelled from the spec (§4.1, §3).  A stored
document carries its store-assigned identifier, the implicit creation
timestamp the adapter assigns at insert time (§4.1: "an implicit creation
timestamp assigned by the store or the adapter at insert time"; kept as
store metadata, since the spec's example response bodies do not include
it), and its fields. -/

structure StoredDoc where
  oid : Nat
  created_at : Nat
  fields : Doc
deriving Repr, DecidableEq

/-- The raw document as the driver hands it to application code: the
store-native `_id` field followed by the data fields. -/
def StoredDoc.asDoc (d : StoredDoc) : Doc :=
  ("_id", voidd d.oid) :: d.fields

/-- The three collections of the store (§6), plus the counters from which
fresh identifiers and creation timestamps are drawn. -/
structure Store where
  server : List StoredDoc
  channel : List StoredDoc
  message : List StoredDoc
  nextId : Nat
  clock : Nat
deriving Repr, DecidableEq

def Store.empty : Store := ⟨[], [], [], 0, 0⟩

def Store.coll (s : Store) : String → List StoredDoc
  | "server" => s.server
  | "channel" => s.channel
  | "message" => s.message
  | _ => []

def Store.withColl (s : Store) (c : String) (l : List StoredDoc) : Store :=
  match c with
  | "server" => { s with server := l }
  | "channel" => { s with channel := l }
  | "message" => { s with message := l }
  | _ => s

/-- Every identifier already present in the store is below the fresh
counter (so a freshly assigned identifier is new). -/
def Store.WF (s : Store) : Prop :=
  (∀ d ∈ s.server, d.oid < s.nextId) ∧
  (∀ d ∈ s.channel, d.oid < s.nextId) ∧
  (∀ d ∈ s.message, d.oid < s.nextId)

instance (s : Store) : Decidable s.WF := by
  unfold Store.WF; infer_instance

/-- Exact-match filter (§4.1): the document satisfies the filter when
every filter field is present with that exact value. -/
def matchesFilter (filter : Doc) (doc : Doc) : Bool :=
  filter.all fun kv => decide (doc.lookup kv.1 = some kv.2)

/-- The per-collection field defaults of the data model (§3): fields the
caller omits are stored with these values, so a read-back "reflects
store-assigned defaults" (§4.3c). -/
def collDefaults : String → Doc
  | "server" => [("icon_url", vnull), ("description", vnull), ("owner_id", vnull),
                 ("member_ids", .vlist [])]
  | "channel" => [("type", vstr "text"), ("topic", vnull), ("is_private", vbool false)]
  | "message" => [("attachments", .vlist []), ("reactions", .vmap []),
                  ("is_edited", vbool false)]
  | _ => []

/-- Add a default binding for every field absent from the data. -/
def applyDefaults (defaults : Doc) (d : Doc) : Doc :=
  defaults.foldl (fun acc kv => if (Doc.lookup acc kv.1).isSome then acc else acc ++ [kv]) d

/-- Modelled from the spec: `create_document(collection, data)` from
`database.py` (not in the sources).  Per §4.1 it inserts `data` as a new
document and returns the newly assigned identifier as a string; per §3
and §4.3c the stored document carries the entity defaults for absent
fields, and per §4.1 an implicit creation timestamp is assigned at
insert time. -/
def create_document (s : Store) (c : String) (data : Doc) : Store × String :=
  let doc : StoredDoc := ⟨s.nextId, s.clock, applyDefaults (collDefaults c) data⟩
  ({ s.withColl c (s.coll c ++ [doc]) with nextId := s.nextId + 1, clock := s.clock + 1 },
   oidStr s.nextId)

/-- Modelled from the spec: `get_documents(collection, filter)` from
`database.py` (not in the sources).  Per §4.1 it returns all documents of
the collection matching the exact-match filter; an empty filter returns
all documents.  Order is the store's natural (insertion) order. -/
def get_documents (s : Store) (c : String) (filter : Doc) : List Doc :=
  ((s.coll c).filter fun d => matchesFilter filter d.asDoc).map StoredDoc.asDoc

/-- `db[c].find_one(filter)`: first matching document, if any. -/
def db_find_one (s : Store) (c : String) (filter : Doc) : Option Doc :=
  (((s.coll c).filter fun d => matchesFilter filter d.asDoc).map StoredDoc.asDoc).head?

/-- `db[c].count_documents(filter)`. -/
def db_count_documents (s : Store) (c : String) (filter : Doc) : Nat :=
  ((s.coll c).filter fun d => matchesFilter filter d.asDoc).length

/-! ### Pydantic input models (`main.py` lines 47–65) -/

/-- `Optional[str]` rendered into a document value by `model_dump()`. -/
def optStr : Option String → Value
  | none => vnull
  | some s => vstr s

structure ServerIn where
  name : String
  icon_url : Option String := none
  description : Option String := none
  owner_id : Option String := none
deriving Repr, DecidableEq

def ServerIn.model_dump (p : ServerIn) : Doc :=
  [("name", vstr p.name), ("icon_url", optStr p.icon_url),
   ("description", optStr p.description), ("owner_id", optStr p.owner_id)]

/-- The `pattern="^(text|voice|announcement|stage)$"` constraint on
`ChannelIn.type`. -/
def channelTypeOk (t : String) : Bool :=
  t = "text" || t = "voice" || t = "announcement" || t = "stage"

structure ChannelIn where
  name : String
  type : String := "text"
  topic : Option String := none
  is_private : Bool := false
deriving Repr, DecidableEq

def ChannelIn.model_dump (p : ChannelIn) : Doc :=
  [("name", vstr p.name), ("type", vstr p.type),
   ("topic", optStr p.topic), ("is_private", vbool p.is_private)]

/-- Pydantic validation of a raw request body against `ChannelIn`:
required `name`, `type` defaulted to `"text"` and checked against the
pattern, optional `topic`, `is_private` defaulted to `false`.  Fields not
declared on the model — in particular a `server_id` in the body — are
ignored (Pydantic's default "ignore extra" behaviour). -/
def ChannelIn.validate (body : Doc) : Option ChannelIn := do
  let name ← match Doc.lookup body "name" with
    | some (Value.prim (Prim.pstr s)) => some s
    | _ => none
  let ty ← match Doc.lookup body "type" with
    | none => some "text"
    | some (Value.prim (Prim.pstr s)) => if channelTypeOk s then some s else none
    | _ => none
  let topic ← match Doc.lookup body "topic" with
    | none => some none
    | some (Value.prim Prim.pnull) => some none
    | some (Value.prim (Prim.pstr s)) => some (some s)
    | _ => none
  let priv ← match Doc.lookup body "is_private" with
    | none => some false
    | some (Value.prim (Prim.pbool b)) => some b
    | _ => none
  pure ⟨name, ty, topic, priv⟩

structure MessageIn where
  author_id : String
  author_name : String
  content : String
  attachments : List String := []
deriving Repr, DecidableEq

def MessageIn.model_dump (p : MessageIn) : Doc :=
  [("author_id", vstr p.author_id), ("author_name", vstr p.author_name),
   ("content", vstr p.content), ("attachments", .vlist (p.attachments.map .pstr))]

/-! ### Route handlers (`main.py` lines 72–172)

Each handler is a function of the store; handlers that write return the
updated store alongside the response body. -/

def read_root : Doc := [("message", vstr "Chat API is running")]

def hello : Doc := [("message", vstr "Hello from the backend API!")]

/-- `GET /api/servers` (`main.py` 118–121). -/
def list_servers (s : Store) : List Doc :=
  (get_documents s "server" []).map serialize_doc

/-- `POST /api/servers` (`main.py` 124–128). -/
def create_server (s : Store) (payload : ServerIn) : Store × Option Doc :=
  let (s1, server_id) := create_document s "server" payload.model_dump
  let doc := db_find_one s1 "server" [("_id", voidd (objectIdOf server_id))]
  (s1, serialize_docOpt doc)

/-- `GET /api/servers/{server_id}/channels` (`main.py` 135–138). -/
def list_channels (s : Store) (server_id : String) : List Doc :=
  (get_documents s "channel" [("server_id", vstr server_id)]).map serialize_doc

/-- `POST /api/servers/{server_id}/channels` (`main.py` 141–147): the
body's dump is taken and `data["server_id"] = server_id` overrides /
injects the path parameter before the create. -/
def create_channel (s : Store) (server_id : String) (payload : ChannelIn) :
    Store × Option Doc :=
  let data := Doc.set payload.model_dump "server_id" (vstr server_id)
  let (s1, channel_id) := create_document s "channel" data
  let doc := db_find_one s1 "channel" [("_id", voidd (objectIdOf channel_id))]
  (s1, serialize_docOpt doc)

/-- The comparison `db["message"].find(...).sort("created_at", 1)` sorts
by: creation timestamp, ascending. -/
def createdLE (a b : StoredDoc) : Prop := a.created_at ≤ b.created_at

instance : DecidableRel createdLE := fun a b => Nat.decLe a.created_at b.created_at

instance : IsTotal StoredDoc createdLE := ⟨fun a b => Nat.le_total a.created_at b.created_at⟩

instance : IsTrans StoredDoc createdLE := ⟨fun _ _ _ => Nat.le_trans⟩

/-- The stored messages selected by `GET /api/channels/{channel_id}/messages`
before serialization: filter by `channel_id`, sort ascending by creation
time, cap at `limit` (§4.1). -/
def listMessagesStored (s : Store) (channel_id : String) (limit : Nat) : List StoredDoc :=
  (List.insertionSort createdLE
    (s.message.filter fun d => matchesFilter [("channel_id", vstr channel_id)] d.asDoc)).take
    limit

/-- `GET /api/channels/{channel_id}/messages` (`main.py` 154–158).  The
`limit` query parameter is a Python `int`; the sort/limit semantics of
the store cursor are modelled from the spec (§4.1: "cap result count at a
caller-supplied `limit`"). -/
def list_messages (s : Store) (channel_id : String) (limit : Int) : List Doc :=
  (listMessagesStored s channel_id limit.toNat).map fun d => serialize_doc d.asDoc

/-- `POST /api/channels/{channel_id}/messages` (`main.py` 161–172).  The
channel lookup is performed but its result is only tested by
`if not channel: pass`, which does nothing on either branch. -/
def send_message (s : Store) (channel_id : String) (payload : MessageIn) :
    Store × Option Doc :=
  let _channel :=
    if ObjectId.is_valid channel_id then
      db_find_one s "channel" [("_id", voidd (objectIdOf channel_id))]
    else
      db_find_one s "channel" [("id", vstr channel_id)]
  let data := Doc.set payload.model_dump "channel_id" (vstr channel_id)
  let (s1, msg_id) := create_document s "message" data
  let doc := db_find_one s1 "message" [("_id", voidd (objectIdOf msg_id))]
  (s1, serialize_docOpt doc)

/-! ### `GET /test` (`main.py` lines 82–111)

The handler probes the globals `db`, `db.name`, `db.list_collection_names()`
and the environment; these externals are modelled by an explicit probe
outcome so the handler itself is a total function of that outcome. -/

/-- Outcome of touching the store handle inside the `try` of `/test`:
the handle is `None`; touching it raises; or it is connected, with an
optional `name` attribute and the result of `list_collection_names()`
(a listing or a raised error, rendered by its message). -/
inductive DbProbe where
  | noDb : DbProbe
  | outerError : String → DbProbe
  | connected : Option String → Except String (List String) → DbProbe

/-- Python `str(e)[:50]`: at most the first 50 characters. -/
def strTake50 (e : String) : String :=
  String.mk (e.data.take 50)

/-- `GET /test`: builds the diagnostic response dict; every store error is
caught and rendered into the `database` field, truncated to 50
characters, and the function always returns a response document. -/
def test_database (probe : DbProbe) (envURL envNAME : Bool) : Doc :=
  let response : Doc :=
    [("backend", vstr "✅ Running"), ("database", vstr "❌ Not Available"),
     ("database_url", vnull), ("database_name", vnull),
     ("connection_status", vstr "Not Connected"), ("collections", .vlist [])]
  let response :=
    match probe with
    | .noDb => Doc.set response "database" (vstr "⚠️  Available but not initialized")
    | .outerError e => Doc.set response "database" (vstr ("❌ Error: " ++ strTake50 e))
    | .connected name listing =>
      let response := Doc.set response "database" (vstr "✅ Available")
      let response := Doc.set response "database_url" (vstr "✅ Configured")
      let response := Doc.set response "database_name"
        (vstr (match name with | some n => n | none => "✅ Connected"))
      let response := Doc.set response "connection_status" (vstr "Connected")
      match listing with
      | .ok collections =>
        let response := Doc.set response "collections" (.vlist ((collections.take 10).map .pstr))
        Doc.set response "database" (vstr "✅ Connected & Working")
      | .error e =>
        Doc.set response "database" (vstr ("⚠️  Connected but Error: " ++ strTake50 e))
  let response := Doc.set response "database_url"
    (vstr (if envURL then "✅ Set" else "❌ Not Set"))
  Doc.set response "database_name" (vstr (if envNAME then "✅ Set" else "❌ Not Set"))

/-! ### `POST /api/seed` (`main.py` lines 179–210) -/

/-- Python `doc["key"]` where the program expects a string (a `KeyError` /
non-string would raise; the default is never reached in the verified
runs). -/
def getStr (d : Doc) (k : String) : String :=
  match Doc.lookup d k with
  | some (Value.prim (Prim.pstr s)) => s
  | _ => ""

/-- `POST /api/seed`: ensure a server, four channels, three welcome
messages; return the server and its channel list. -/
def seed_demo (s : Store) : Store × (Doc × List Doc) :=
  let existing := db_find_one s "server" []
  let (s1, server) :=
    match existing with
    | some doc => (s, serialize_doc doc)
    | none =>
        let (s', r) := create_server s
          { name := "VibeCord", description := some "A modern, minimal community" }
        (s', r.getD [])
  let server_id := getStr server "id"
  let s2 :=
    if db_count_documents s1 "channel" [("server_id", vstr server_id)] = 0 then
      ["general", "announcements", "design", "dev-talk"].foldl
        (fun acc name =>
          (create_channel acc server_id
            { name := name, topic := some ("Welcome to #" ++ name) }).1) s1
    else s1
  let channels := list_channels s2 server_id
  let s3 :=
    match channels.head? with
    | none => s2
    | some first_channel =>
      let fcid := getStr first_channel "id"
      if db_count_documents s2 "message" [("channel_id", vstr fcid)] = 0 then
        ["Welcome to VibeCord — a clean, modern chat.",
         "Use the message box below to send your first message.",
         "We'll keep things fast and minimal."].foldl
          (fun acc text =>
            (send_message acc fcid
              { author_id := "seed", author_name := "System", content := text }).1) s2
      else s2
  (s3, (server, channels))

/-! ### Facts about serialization -/

/-- `True` of a value that is a store-native `ObjectId` at top level. -/
def Value.isOid : Value → Bool
  | .prim (.poid _) => true
  | _ => false

theorem serialize_id_of_not_oid (v : Value) (h : v.isOid = false) : serialize_id v = v := by
  cases v with
  | prim p => cases p <;> simp_all [Value.isOid, serialize_id]
  | vlist l => rfl
  | vmap m => rfl

theorem serialize_id_optStr (o : Option String) : serialize_id (optStr o) = optStr o := by
  cases o <;> rfl

theorem serialize_id_vstr (s : String) : serialize_id (vstr s) = vstr s := rfl

theorem serialize_id_vlist (l : List Prim) : serialize_id (.vlist l) = .vlist l := rfl

theorem serialize_id_vmap (m : List (String × Prim)) : serialize_id (.vmap m) = .vmap m := rfl

theorem serializeEntry_of_id (kv : String × Value) (h : kv.1 = "_id") :
    serializeEntry kv = ("id", serialize_id kv.2) := by
  simp [serializeEntry, h]

theorem serializeEntry_of_ne (kv : String × Value) (h : kv.1 ≠ "_id") :
    serializeEntry kv = (kv.1, serialize_id kv.2) := by
  simp [serializeEntry, h]

/-- The rebuilt dict never carries the key `_id`: `_id` is renamed and
every other key is kept unchanged. -/
theorem lookup_map_serializeEntry_underscore (l : List (String × Value)) :
    Doc.lookup (l.map serializeEntry) "_id" = none := by
  induction l with
  | nil => rfl
  | cons kv rest ih =>
      by_cases h : kv.1 = "_id"
      · rw [List.map_cons, serializeEntry_of_id kv h, Doc.lookup]
        simp [ih]
      · rw [List.map_cons, serializeEntry_of_ne kv h, Doc.lookup]
        simp [h, ih]

/-- Looking up any key other than `_id` and `id` through serialization
just serializes the stored value. -/
theorem lookup_map_serializeEntry (l : List (String × Value)) (k : String)
    (hk1 : k ≠ "_id") (hk2 : k ≠ "id") :
    Doc.lookup (l.map serializeEntry) k = (Doc.lookup l k).map serialize_id := by
  induction l with
  | nil => rfl
  | cons kv rest ih =>
      by_cases h : kv.1 = "_id"
      · rw [List.map_cons, serializeEntry_of_id kv h, Doc.lookup, Doc.lookup]
        rw [if_neg (fun hc => hk2 hc.symm), if_neg (fun hc : kv.1 = k => hk1 (hc ▸ h))]
        exact ih
      · rw [List.map_cons, serializeEntry_of_ne kv h, Doc.lookup, Doc.lookup]
        by_cases hkk : kv.1 = k
        · rw [if_pos hkk, if_pos hkk]; rfl
        · rw [if_neg hkk, if_neg hkk]; exact ih

theorem lookup_serialize_doc (d : Doc) (k : String) (hk1 : k ≠ "_id") (hk2 : k ≠ "id") :
    Doc.lookup (serialize_doc d) k = (Doc.lookup d k).map serialize_id := by
  by_cases h : d = ([] : Doc)
  · subst h; rfl
  · simp only [serialize_doc, if_neg h]
    exact lookup_map_serializeEntry d k hk1 hk2

/-! ### Create / read-back round trip -/

theorem objectIdOf_oidStr (n : Nat) : objectIdOf (oidStr n) = n := by
  simp [objectIdOf, objectIdOf?_oidStr]

theorem matchesFilter_id (d : StoredDoc) (n : Nat) :
    matchesFilter [("_id", voidd n)] d.asDoc = decide (d.oid = n) := by
  simp [matchesFilter, StoredDoc.asDoc, Doc.lookup, voidd]

/-- Read-back after an insert: the fresh identifier matches only the
document just appended. -/
theorem filter_fresh (l : List StoredDoc) (n : Nat) (h : ∀ d ∈ l, d.oid < n)
    (new : StoredDoc) (hnew : new.oid = n) :
    (l ++ [new]).filter (fun d => matchesFilter [("_id", voidd n)] d.asDoc) = [new] := by
  rw [List.filter_append]
  have h1 : l.filter (fun d => matchesFilter [("_id", voidd n)] d.asDoc) = [] := by
    rw [List.filter_eq_nil_iff]
    intro d hd
    rw [matchesFilter_id]
    simp
    exact Nat.ne_of_lt (h d hd)
  have h2 : List.filter (fun d => matchesFilter [("_id", voidd n)] d.asDoc) [new] = [new] := by
    have : matchesFilter [("_id", voidd n)] new.asDoc = true := by
      rw [matchesFilter_id, hnew]; simp
    simp [List.filter, this]
  rw [h1, h2]
  rfl

theorem head_map_filter_fresh (l : List StoredDoc) (n : Nat) (h : ∀ d ∈ l, d.oid < n)
    (new : StoredDoc) (hnew : new.oid = n) :
    (((l ++ [new]).filter fun d => matchesFilter [("_id", voidd n)] d.asDoc).map
      StoredDoc.asDoc).head? = some new.asDoc := by
  rw [filter_fresh l n h new hnew]
  rfl

theorem serialize_id_voidd (n : Nat) : serialize_id (voidd n) = vstr (oidStr n) := rfl

/-- What `POST /api/servers` answers: the read-back of the freshly
created document, serialized. -/
theorem create_server_eq (s : Store) (p : ServerIn) (h : s.WF) :
    (create_server s p).2 =
      some [("id", vstr (oidStr s.nextId)), ("name", vstr p.name),
            ("icon_url", optStr p.icon_url), ("description", optStr p.description),
            ("owner_id", optStr p.owner_id), ("member_ids", Value.vlist [])] := by
  have hfind := head_map_filter_fresh s.server s.nextId h.1
    ⟨s.nextId, s.clock, p.model_dump ++ [("member_ids", Value.vlist [])]⟩ rfl
  simp only [create_server, create_document, Store.withColl, Store.coll, db_find_one,
    objectIdOf_oidStr]
  rw [show applyDefaults (collDefaults "server") p.model_dump
        = p.model_dump ++ [("member_ids", Value.vlist [])] from rfl]
  rw [hfind]
  simp [serialize_docOpt, serialize_doc, StoredDoc.asDoc, ServerIn.model_dump, serializeEntry,
    serialize_id_optStr, serialize_id_voidd, serialize_id_vstr, serialize_id_vlist]

theorem serialize_id_vbool (b : Bool) : serialize_id (vbool b) = vbool b := rfl

/-- C1: For every valid `ServerIn` payload, `POST /api/servers` returns
the created Server document: its `id` is a non-empty string and the other
fields equal the input, with the unspecified optional field `member_ids`
defaulted to the empty list. -/
theorem create_server_contract (s : Store) (p : ServerIn) (h : s.WF) :
    (create_server s p).2 =
      some [("id", vstr (oidStr s.nextId)), ("name", vstr p.name),
            ("icon_url", optStr p.icon_url), ("description", optStr p.description),
            ("owner_id", optStr p.owner_id), ("member_ids", Value.vlist [])] ∧
    oidStr s.nextId ≠ "" :=
  ⟨create_server_eq s p h, oidStr_ne_empty s.nextId⟩

/-- Witness for C1: the spec's own example, `POST /api/servers
{"name":"Test"}` against the empty store. -/
theorem create_server_contract_witness :
    Store.empty.WF ∧
    ((create_server Store.empty { name := "Test" }).2 =
        some [("id", vstr (oidStr 0)), ("name", vstr "Test"), ("icon_url", vnull),
              ("description", vnull), ("owner_id", vnull), ("member_ids", Value.vlist [])] ∧
      oidStr 0 ≠ "") :=
  ⟨by decide, create_server_contract Store.empty { name := "Test" } (by decide)⟩

/-- What `POST /api/servers/{server_id}/channels` answers. -/
theorem create_channel_eq (s : Store) (server_id : String) (p : ChannelIn) (h : s.WF) :
    (create_channel s server_id p).2 =
      some [("id", vstr (oidStr s.nextId)), ("name", vstr p.name),
            ("type", vstr p.type), ("topic", optStr p.topic),
            ("is_private", vbool p.is_private), ("server_id", vstr server_id)] := by
  have hfind := head_map_filter_fresh s.channel s.nextId h.2.1
    ⟨s.nextId, s.clock, p.model_dump ++ [("server_id", vstr server_id)]⟩ rfl
  simp only [create_channel, create_document, Store.withColl, Store.coll, db_find_one,
    objectIdOf_oidStr]
  rw [show applyDefaults (collDefaults "channel") (Doc.set p.model_dump "server_id" (vstr server_id))
        = p.model_dump ++ [("server_id", vstr server_id)] from rfl]
  rw [hfind]
  simp [serialize_docOpt, serialize_doc, StoredDoc.asDoc, ChannelIn.model_dump, serializeEntry,
    serialize_id_optStr, serialize_id_voidd, serialize_id_vstr, serialize_id_vbool]

/-- C4: channel creation takes its `server_id` from the path parameter;
a `server_id` field in the request body is dropped by validation (it is
not a `ChannelIn` field) and therefore ignored. -/
theorem create_channel_path_overrides_body (s : Store) (h : s.WF) (body : Doc)
    (p : ChannelIn) (server_id other : String)
    (_hv : ChannelIn.validate body = some p)
    (_hbody : Doc.lookup body "server_id" = some (vstr other)) :
    ∃ doc, (create_channel s server_id p).2 = some doc ∧
      Doc.lookup doc "server_id" = some (vstr server_id) :=
  ⟨_, create_channel_eq s server_id p h, rfl⟩

/-- Witness for C4: a body carrying `server_id = "OTHER"` still yields a
channel whose `server_id` is the path parameter `"srv1"`. -/
theorem create_channel_path_overrides_body_witness :
    Store.empty.WF ∧
    ChannelIn.validate [("name", vstr "general"), ("server_id", vstr "OTHER")] =
      some { name := "general" } ∧
    Doc.lookup [("name", vstr "general"), ("server_id", vstr "OTHER")] "server_id" =
      some (vstr "OTHER") ∧
    ∃ doc, (create_channel Store.empty "srv1" { name := "general" }).2 = some doc ∧
      Doc.lookup doc "server_id" = some (vstr "srv1") :=
  ⟨by decide, by decide, by decide,
    create_channel_path_overrides_body Store.empty (by decide)
      [("name", vstr "general"), ("server_id", vstr "OTHER")] { name := "general" }
      "srv1" "OTHER" (by decide) (by decide)⟩

/-- What `POST /api/channels/{channel_id}/messages` answers. -/
theorem send_message_eq (s : Store) (channel_id : String) (p : MessageIn) (h : s.WF) :
    (send_message s channel_id p).2 =
      some [("id", vstr (oidStr s.nextId)), ("author_id", vstr p.author_id),
            ("author_name", vstr p.author_name), ("content", vstr p.content),
            ("attachments", Value.vlist (p.attachments.map .pstr)),
            ("channel_id", vstr channel_id), ("reactions", Value.vmap []),
            ("is_edited", vbool false)] := by
  have hfind := head_map_filter_fresh s.message s.nextId h.2.2
    ⟨s.nextId, s.clock,
      p.model_dump ++ [("channel_id", vstr channel_id), ("reactions", Value.vmap []),
                       ("is_edited", vbool false)]⟩ rfl
  simp only [send_message, create_document, Store.withColl, Store.coll, db_find_one,
    objectIdOf_oidStr]
  rw [show applyDefaults (collDefaults "message") (Doc.set p.model_dump "channel_id" (vstr channel_id))
        = p.model_dump ++ [("channel_id", vstr channel_id), ("reactions", Value.vmap []),
                           ("is_edited", vbool false)] from rfl]
  rw [hfind]
  simp [serialize_docOpt, serialize_doc, StoredDoc.asDoc, MessageIn.model_dump, serializeEntry,
    serialize_id_voidd, serialize_id_vstr, serialize_id_vbool, serialize_id_vlist,
    serialize_id_vmap]

/-- C5: sending a message to a `channel_id` for which the channel lookup
finds nothing still succeeds and returns a Message document carrying that
`channel_id`; the failed existence check has no effect. -/
theorem send_message_missing_channel_ok (s : Store) (h : s.WF) (channel_id : String)
    (p : MessageIn)
    (_hmiss : (if ObjectId.is_valid channel_id then
        db_find_one s "channel" [("_id", voidd (objectIdOf channel_id))]
      else db_find_one s "channel" [("id", vstr channel_id)]) = none) :
    ∃ doc, (send_message s channel_id p).2 = some doc ∧
      Doc.lookup doc "channel_id" = some (vstr channel_id) :=
  ⟨_, send_message_eq s channel_id p h, rfl⟩

/-- Witness for C5: posting to a channel id that exists nowhere in the
empty store succeeds and echoes the id. -/
theorem send_message_missing_channel_ok_witness :
    Store.empty.WF ∧
    (if ObjectId.is_valid "nochannel" then
        db_find_one Store.empty "channel" [("_id", voidd (objectIdOf "nochannel"))]
      else db_find_one Store.empty "channel" [("id", vstr "nochannel")]) = none ∧
    ∃ doc,
      (send_message Store.empty "nochannel"
          { author_id := "u1", author_name := "U", content := "hi" }).2 = some doc ∧
      Doc.lookup doc "channel_id" = some (vstr "nochannel") :=
  ⟨by decide, by decide,
    send_message_missing_channel_ok Store.empty (by decide) "nochannel"
      { author_id := "u1", author_name := "U", content := "hi" } (by decide)⟩

/-- C2: message listing returns only messages of the requested channel,
in non-decreasing creation-time order, and never more than `limit` items,
for any integer `limit >= 0`. -/
theorem list_messages_contract (s : Store) (channel_id : String) (limit : Int)
    (h : 0 ≤ limit) :
    ((list_messages s channel_id limit).length : Int) ≤ limit ∧
    (∀ m ∈ list_messages s channel_id limit,
        Doc.lookup m "channel_id" = some (vstr channel_id)) ∧
    List.Sorted createdLE (listMessagesStored s channel_id limit.toNat) ∧
    list_messages s channel_id limit =
      (listMessagesStored s channel_id limit.toNat).map fun d => serialize_doc d.asDoc := by
  refine ⟨?_, ?_, ?_, rfl⟩
  · have h1 : (list_messages s channel_id limit).length ≤ limit.toNat := by
      simp only [list_messages, listMessagesStored, List.length_map]
      exact (List.length_take_le _ _)
    calc ((list_messages s channel_id limit).length : Int)
        ≤ (limit.toNat : Int) := Int.ofNat_le.mpr h1
      _ = limit := Int.toNat_of_nonneg h
  · intro m hm
    simp only [list_messages, List.mem_map] at hm
    obtain ⟨d, hd, rfl⟩ := hm
    have hd2 : d ∈ (List.insertionSort createdLE
        (s.message.filter fun x => matchesFilter [("channel_id", vstr channel_id)] x.asDoc)) :=
      List.mem_of_mem_take hd
    have hd3 : d ∈ s.message.filter
        (fun x => matchesFilter [("channel_id", vstr channel_id)] x.asDoc) :=
      (List.perm_insertionSort createdLE _).mem_iff.mp hd2
    have hd4 := (List.mem_filter.mp hd3).2
    have hd5 : Doc.lookup d.asDoc "channel_id" = some (vstr channel_id) := by
      simp [matchesFilter] at hd4
      exact hd4
    rw [lookup_serialize_doc d.asDoc "channel_id" (by decide) (by decide), hd5]
    rfl
  · exact List.Pairwise.sublist (List.take_sublist _ _)
      (List.sorted_insertionSort createdLE _)

/-- Witness for C2: listing an unknown channel with `limit = 2` against
the empty store. -/
theorem list_messages_contract_witness :
    (0 : Int) ≤ 2 ∧
    ((list_messages Store.empty "c1" 2).length : Int) ≤ 2 ∧
    (∀ m ∈ list_messages Store.empty "c1" 2,
        Doc.lookup m "channel_id" = some (vstr "c1")) ∧
    List.Sorted createdLE (listMessagesStored Store.empty "c1" (Int.toNat 2)) ∧
    list_messages Store.empty "c1" 2 =
      (listMessagesStored Store.empty "c1" (Int.toNat 2)).map fun d => serialize_doc d.asDoc :=
  ⟨by decide, list_messages_contract Store.empty "c1" 2 (by decide)⟩

/-- C3: starting from the empty store, seeding twice leaves exactly one
Server named "VibeCord", exactly four Channels belonging to it named
general / announcements / design / dev-talk, and exactly three Messages
in the first channel; the second call changes nothing. -/
theorem seed_idempotent :
    ((seed_demo (seed_demo Store.empty).1).1 = (seed_demo Store.empty).1) ∧
    ((seed_demo Store.empty).1.server.length = 1) ∧
    (∀ d ∈ (seed_demo Store.empty).1.server,
        Doc.lookup d.fields "name" = some (vstr "VibeCord")) ∧
    ((seed_demo Store.empty).1.channel.length = 4) ∧
    ((seed_demo Store.empty).1.channel.map (fun d => Doc.lookup d.fields "name") =
      [some (vstr "general"), some (vstr "announcements"), some (vstr "design"),
       some (vstr "dev-talk")]) ∧
    (∀ d ∈ (seed_demo Store.empty).1.channel,
        Doc.lookup d.fields "server_id" = Doc.lookup (seed_demo Store.empty).2.1 "id") ∧
    ((seed_demo Store.empty).1.message.length = 3) ∧
    (∀ d ∈ (seed_demo Store.empty).1.message,
        Doc.lookup d.fields "channel_id" =
          ((seed_demo Store.empty).2.2.head?.bind fun c => Doc.lookup c "id")) := by
  decide

/-- C10: every seeded Channel has the `ChannelIn` defaults `type="text"`,
`is_private=false`; every seeded welcome Message has author id `"seed"`,
author name `"System"`, empty attachments, and the first listed channel's
id as its `channel_id`. -/
theorem seed_contents_defaults :
    (∀ d ∈ (seed_demo Store.empty).1.channel,
        Doc.lookup d.fields "type" = some (vstr "text") ∧
        Doc.lookup d.fields "is_private" = some (vbool false)) ∧
    (∀ d ∈ (seed_demo Store.empty).1.message,
        Doc.lookup d.fields "author_id" = some (vstr "seed") ∧
        Doc.lookup d.fields "author_name" = some (vstr "System") ∧
        Doc.lookup d.fields "attachments" = some (Value.vlist []) ∧
        Doc.lookup d.fields "channel_id" =
          ((seed_demo Store.empty).2.2.head?.bind fun c => Doc.lookup c "id")) := by
  decide

/-- C6: `serialize_doc` is idempotent — applying it twice equals applying
it once; on an already-serialized document (no `_id` key, no top-level
store-native identifier value) it is a no-op; and a `None` input passes
through unchanged (also stably). -/
theorem serialize_doc_stable :
    (∀ d : Doc, serialize_doc (serialize_doc d) = serialize_doc d) ∧
    (∀ d : Doc, (∀ kv ∈ d, kv.1 ≠ "_id" ∧ kv.2.isOid = false) → serialize_doc d = d) ∧
    serialize_docOpt none = none ∧
    (∀ o : Option Doc, serialize_docOpt (serialize_docOpt o) = serialize_docOpt o) := by
  refine ⟨serialize_doc_idem, ?_, rfl, ?_⟩
  · intro d hd
    by_cases h : d = ([] : Doc)
    · simp [serialize_doc, h]
    · simp only [serialize_doc, if_neg h]
      calc List.map serializeEntry d
          = List.map id d := List.map_congr_left fun kv hkv => by
            rw [serializeEntry_of_ne kv (hd kv hkv).1,
              serialize_id_of_not_oid kv.2 (hd kv hkv).2]
            rfl
        _ = d := List.map_id d
  · intro o
    cases o with
    | none => rfl
    | some d => exact congrArg some (serialize_doc_idem d)

/-- Witness for C6: a document already in client form is fixed by one and
by two applications. -/
theorem serialize_doc_stable_witness :
    serialize_doc (serialize_doc [("id", vstr "abc"), ("name", vstr "Test")]) =
      serialize_doc [("id", vstr "abc"), ("name", vstr "Test")] ∧
    (∀ kv ∈ ([("id", vstr "abc"), ("name", vstr "Test")] : Doc),
        kv.1 ≠ "_id" ∧ kv.2.isOid = false) ∧
    serialize_doc [("id", vstr "abc"), ("name", vstr "Test")] =
      [("id", vstr "abc"), ("name", vstr "Test")] :=
  ⟨serialize_doc_stable.1 _, by decide, serialize_doc_stable.2.1 _ (by decide)⟩

/-- C9: `serialize_id` converts a store-native identifier to a string at
the top level only: an identifier nested inside a list or mapping value
survives serialization unchanged, still as the store-native type. -/
theorem serialize_doc_top_level_only :
    (∀ n, serialize_id (voidd n) = vstr (oidStr n)) ∧
    (∀ l : List Prim, serialize_id (Value.vlist l) = Value.vlist l) ∧
    (∀ m : List (String × Prim), serialize_id (Value.vmap m) = Value.vmap m) ∧
    (∀ (d : Doc) (k : String), k ≠ "_id" → k ≠ "id" →
      ∀ l : List Prim, Doc.lookup d k = some (Value.vlist l) →
        Doc.lookup (serialize_doc d) k = some (Value.vlist l)) ∧
    (∀ (d : Doc) (k : String), k ≠ "_id" → k ≠ "id" →
      ∀ m : List (String × Prim), Doc.lookup d k = some (Value.vmap m) →
        Doc.lookup (serialize_doc d) k = some (Value.vmap m)) := by
  refine ⟨fun n => rfl, fun l => rfl, fun m => rfl, ?_, ?_⟩
  · intro d k hk1 hk2 l hl
    rw [lookup_serialize_doc d k hk1 hk2, hl]
    rfl
  · intro d k hk1 hk2 m hm
    rw [lookup_serialize_doc d k hk1 hk2, hm]
    rfl

/-- Witness for C9: a `member_ids` list holding a store-native identifier
is returned with the identifier still unconverted. -/
theorem serialize_doc_top_level_only_witness :
    ("member_ids" : String) ≠ "_id" ∧ ("member_ids" : String) ≠ "id" ∧
    Doc.lookup [("_id", voidd 0), ("member_ids", Value.vlist [Prim.poid 7])] "member_ids" =
      some (Value.vlist [Prim.poid 7]) ∧
    Doc.lookup
        (serialize_doc [("_id", voidd 0), ("member_ids", Value.vlist [Prim.poid 7])])
        "member_ids" = some (Value.vlist [Prim.poid 7]) :=
  ⟨by decide, by decide, by decide,
    serialize_doc_top_level_only.2.2.2.1
      [("_id", voidd 0), ("member_ids", Value.vlist [Prim.poid 7])] "member_ids"
      (by decide) (by decide) [Prim.poid 7] (by decide)⟩

/-! ### The client-document invariant (C7) -/

/-- A document in client form: no store-native `_id` key, and a string
identifier under `id`. -/
def IsClientDoc (d : Doc) : Prop :=
  Doc.lookup d "_id" = none ∧ ∃ str, Doc.lookup d "id" = some (vstr str)

theorem isClientDoc_serialize_asDoc (d : StoredDoc) : IsClientDoc (serialize_doc d.asDoc) := by
  constructor
  · show Doc.lookup ((d.asDoc).map serializeEntry) "_id" = none
    exact lookup_map_serializeEntry_underscore d.asDoc
  · exact ⟨oidStr d.oid, rfl⟩

theorem isClientDoc_map (l : List StoredDoc) :
    ∀ m ∈ l.map fun d => serialize_doc d.asDoc, IsClientDoc m := by
  intro m hm
  obtain ⟨d, _, rfl⟩ := List.mem_map.mp hm
  exact isClientDoc_serialize_asDoc d

theorem list_servers_clientDocs (s : Store) : ∀ m ∈ list_servers s, IsClientDoc m := by
  intro m hm
  simp only [list_servers, get_documents, List.map_map] at hm
  exact isClientDoc_map _ m hm

theorem list_channels_clientDocs (s : Store) (sid : String) :
    ∀ m ∈ list_channels s sid, IsClientDoc m := by
  intro m hm
  simp only [list_channels, get_documents, List.map_map] at hm
  exact isClientDoc_map _ m hm

theorem list_messages_clientDocs (s : Store) (cid : String) (limit : Int) :
    ∀ m ∈ list_messages s cid limit, IsClientDoc m := by
  intro m hm
  simp only [list_messages] at hm
  exact isClientDoc_map _ m hm

theorem mem_of_head?_eq_some {α : Type} {l : List α} {a : α} (h : l.head? = some a) :
    a ∈ l := by
  cases l with
  | nil => simp at h
  | cons x xs =>
      simp only [List.head?_cons, Option.some.injEq] at h
      exact h ▸ List.mem_cons_self x xs

theorem db_find_one_clientDoc (s : Store) (c : String) (f : Doc) (doc : Doc)
    (h : db_find_one s c f = some doc) : IsClientDoc (serialize_doc doc) := by
  have hmem := mem_of_head?_eq_some h
  obtain ⟨d, _, rfl⟩ := List.mem_map.mp hmem
  exact isClientDoc_serialize_asDoc d

theorem seed_demo_clientDocs (s : Store) (h : s.WF) :
    IsClientDoc (seed_demo s).2.1 ∧ ∀ m ∈ (seed_demo s).2.2, IsClientDoc m := by
  rcases hfind : db_find_one s "server" [] with _ | doc
  · constructor
    · show IsClientDoc (seed_demo s).2.1
      simp only [seed_demo, hfind]
      rw [create_server_eq s _ h]
      exact ⟨rfl, ⟨oidStr s.nextId, rfl⟩⟩
    · intro m hm
      simp only [seed_demo, hfind] at hm
      exact list_channels_clientDocs _ _ m hm
  · constructor
    · show IsClientDoc (seed_demo s).2.1
      simp only [seed_demo, hfind]
      exact db_find_one_clientDoc s "server" [] doc hfind
    · intro m hm
      simp only [seed_demo, hfind] at hm
      exact list_channels_clientDocs _ _ m hm

/-- C7: every document any endpoint returns is in client form — the
identifier is exposed as the string field `id`, the key `_id` never
appears, and this holds for single documents and for every element of
list responses, including the seed response. -/
theorem endpoints_expose_string_id (s : Store) (h : s.WF) (p : ServerIn) (pc : ChannelIn)
    (pm : MessageIn) (sid cid : String) (limit : Int) :
    (∀ m ∈ list_servers s, IsClientDoc m) ∧
    (∀ m ∈ list_channels s sid, IsClientDoc m) ∧
    (∀ m ∈ list_messages s cid limit, IsClientDoc m) ∧
    (∃ doc, (create_server s p).2 = some doc ∧ IsClientDoc doc) ∧
    (∃ doc, (create_channel s sid pc).2 = some doc ∧ IsClientDoc doc) ∧
    (∃ doc, (send_message s cid pm).2 = some doc ∧ IsClientDoc doc) ∧
    IsClientDoc (seed_demo s).2.1 ∧
    (∀ m ∈ (seed_demo s).2.2, IsClientDoc m) := by
  refine ⟨list_servers_clientDocs s, list_channels_clientDocs s sid,
    list_messages_clientDocs s cid limit, ?_, ?_, ?_,
    (seed_demo_clientDocs s h).1, (seed_demo_clientDocs s h).2⟩
  · exact ⟨_, create_server_eq s p h, rfl, ⟨oidStr s.nextId, rfl⟩⟩
  · exact ⟨_, create_channel_eq s sid pc h, rfl, ⟨oidStr s.nextId, rfl⟩⟩
  · exact ⟨_, send_message_eq s cid pm h, rfl, ⟨oidStr s.nextId, rfl⟩⟩

/-- Witness for C7: the invariant at the seeded store and concrete
requests. -/
theorem endpoints_expose_string_id_witness :
    (seed_demo Store.empty).1.WF ∧
    ((∀ m ∈ list_servers (seed_demo Store.empty).1, IsClientDoc m) ∧
     (∀ m ∈ list_channels (seed_demo Store.empty).1 "a", IsClientDoc m) ∧
     (∀ m ∈ list_messages (seed_demo Store.empty).1 "aa" 50, IsClientDoc m) ∧
     (∃ doc, (create_server (seed_demo Store.empty).1 { name := "S" }).2 = some doc ∧
        IsClientDoc doc) ∧
     (∃ doc, (create_channel (seed_demo Store.empty).1 "a" { name := "c" }).2 = some doc ∧
        IsClientDoc doc) ∧
     (∃ doc, (send_message (seed_demo Store.empty).1 "aa"
          { author_id := "u", author_name := "U", content := "m" }).2 = some doc ∧
        IsClientDoc doc) ∧
     IsClientDoc (seed_demo (seed_demo Store.empty).1).2.1 ∧
     (∀ m ∈ (seed_demo (seed_demo Store.empty).1).2.2, IsClientDoc m)) :=
  ⟨by decide,
    endpoints_expose_string_id (seed_demo Store.empty).1 (by decide) { name := "S" }
      { name := "c" } { author_id := "u", author_name := "U", content := "m" } "a" "aa" 50⟩

theorem strTake50_length_le (e : String) : (strTake50 e).length ≤ 50 := by
  show (e.data.take 50).length ≤ 50
  exact List.length_take_le _ _

/-- C8: `GET /test` never fails: whatever the store probe does — handle
absent, an error raised while touching it, a listing, or a listing
error — the handler returns a normal response document whose `backend`
field reports running and whose `database` field is a status string; a
raised error is rendered into that string truncated to at most 50
characters instead of propagating. -/
theorem test_database_never_fails (probe : DbProbe) (envURL envNAME : Bool) :
    (Doc.lookup (test_database probe envURL envNAME) "backend" =
      some (vstr "✅ Running")) ∧
    (∃ v, Doc.lookup (test_database probe envURL envNAME) "database" = some (vstr v)) ∧
    (∀ e, probe = .outerError e →
      Doc.lookup (test_database probe envURL envNAME) "database" =
        some (vstr ("❌ Error: " ++ strTake50 e)) ∧ (strTake50 e).length ≤ 50) ∧
    (∀ nm e, probe = .connected nm (.error e) →
      Doc.lookup (test_database probe envURL envNAME) "database" =
        some (vstr ("⚠️  Connected but Error: " ++ strTake50 e)) ∧
      (strTake50 e).length ≤ 50) := by
  refine ⟨?_, ?_, ?_, ?_⟩
  · cases probe with
    | noDb => rfl
    | outerError e => rfl
    | connected nm listing => cases listing <;> rfl
  · cases probe with
    | noDb => exact ⟨_, rfl⟩
    | outerError e => exact ⟨_, rfl⟩
    | connected nm listing =>
        cases listing with
        | ok l => exact ⟨_, rfl⟩
        | error e => exact ⟨_, rfl⟩
  · intro e he
    subst he
    exact ⟨rfl, strTake50_length_le e⟩
  · intro nm e he
    subst he
    exact ⟨rfl, strTake50_length_le e⟩

/-- Witness for C8: a raised outer error and a raised listing error are
both reported as truncated status strings in a normal payload. -/
theorem test_database_never_fails_witness :
    DbProbe.outerError "boom" = DbProbe.outerError "boom" ∧
    (Doc.lookup (test_database (.outerError "boom") true false) "database" =
        some (vstr ("❌ Error: " ++ strTake50 "boom")) ∧
      (strTake50 "boom").length ≤ 50) ∧
    (Doc.lookup (test_database (.connected (some "db") (.error "kaput")) false true)
        "database" =
        some (vstr ("⚠️  Connected but Error: " ++ strTake50 "kaput")) ∧
      (strTake50 "kaput").length ≤ 50) :=
  ⟨rfl,
    (test_database_never_fails (.outerError "boom") true false).2.2.1 "boom" rfl,
    (test_database_never_fails (.connected (some "db") (.error "kaput")) false true).2.2.2
      (some "db") "kaput" rfl⟩
